import Mathlib

/-!
Shallow embedding of the keypad lockbox program (src/Untitled-1.py).

The program controls a lock relay from a matrix keypad.  We model:
  * the configuration constants;
  * the relay (`RelayCmd`, `Relay`, `applyCmd`) — `RelayControl.lock` /
    `RelayControl.unlock` write the GPIO pin, initially LOW (locked);
  * the shared `Lockbox` record (`state`, `lockdown_active`, `window_active`)
    and its five transition operations, each returning the updated record
    together with the list of observable effects (`Event`): relay commands,
    `print` log lines, and `time.sleep` waits, in program order;
  * the interpreter (`StateMachineThread`): per-key step `smStep`, the
    classifier `process_code`, and `runSM` folding a key sequence;
  * an `Op` relation for arbitrary interleavings of the transition
    operations, as the interpreter and window-scheduler threads may
    produce them, with `runOps` for reachability.
-/

namespace Lockbox

/-- Observable relay commands (`RelayControl.lock` / `RelayControl.unlock`). -/
inductive RelayCmd where
  | lock : RelayCmd
  | unlock : RelayCmd
deriving DecidableEq, Repr

/-- Physical relay state; GPIO `RELAY_PIN` is initialized LOW, i.e. locked. -/
inductive Relay where
  | locked : Relay
  | unlocked : Relay
deriving DecidableEq, Repr

/-- Effect of one relay command on the relay. -/
def applyCmd (c : RelayCmd) : Relay :=
  match c with
  | RelayCmd.lock => Relay.locked
  | RelayCmd.unlock => Relay.unlocked

/-- One observable effect of an operation: a log line (`print`), a relay
command, or a timed wait (`time.sleep`). -/
inductive Event where
  | log : String → Event
  | cmd : RelayCmd → Event
  | sleep : Nat → Event
deriving DecidableEq, Repr

/-- Relay state after executing a list of events from a given relay state. -/
def relayAfter (r : Relay) (evs : List Event) : Relay :=
  evs.foldl (fun s e => match e with | Event.cmd c => applyCmd c | _ => s) r

/-- The relay commands issued in a list of events, in order. -/
def cmdsOf (evs : List Event) : List RelayCmd :=
  evs.filterMap (fun e => match e with | Event.cmd c => some c | _ => none)

/-- The log lines printed in a list of events, in order. -/
def logsOf (evs : List Event) : List String :=
  evs.filterMap (fun e => match e with | Event.log s => some s | _ => none)

/-- `NORMAL_CODE = "1234"`, as a character sequence. -/
def NORMAL_CODE : List Char := ['1', '2', '3', '4']

/-- `LOCKDOWN_CODE = "9999"`, as a character sequence. -/
def LOCKDOWN_CODE : List Char := ['9', '9', '9', '9']

/-- `WINDOW_UNLOCK_TIME = 15` (seconds the window stays unlocked). -/
def WINDOW_UNLOCK_TIME : Nat := 15

/-- `WINDOW_INTERVAL = 30` (seconds between unlock windows). -/
def WINDOW_INTERVAL : Nat := 30

/-- `TEMP_UNLOCK_TIME = 10` (unlock time for normal mode). -/
def TEMP_UNLOCK_TIME : Nat := 10

/-- `Mode`: the three system states `NORMAL`, `WINDOW`, `LOCKDOWN`. -/
inductive Mode where
  | NORMAL : Mode
  | WINDOW : Mode
  | LOCKDOWN : Mode
deriving DecidableEq, Repr

/-- The shared mutable record of `class Lockbox`: current mode string
(`self.state`) and the two flags.  (The `threading.Lock` makes each
operation atomic; operations are therefore plain state transformers.) -/
structure Box where
  state : Mode
  lockdown_active : Bool
  window_active : Bool
deriving DecidableEq, Repr

/-- `Lockbox.__init__`: state `NORMAL`, both flags `False`. -/
def initBox : Box :=
  { state := Mode.NORMAL, lockdown_active := false, window_active := false }

/-- `Lockbox.enter_lockdown`. -/
def enter_lockdown (b : Box) : Box × List Event :=
  ({ b with state := Mode.LOCKDOWN, lockdown_active := true },
   [Event.cmd RelayCmd.lock, Event.log "[STATE] LOCKDOWN"])

/-- `Lockbox.exit_lockdown`. -/
def exit_lockdown (b : Box) : Box × List Event :=
  ({ b with state := Mode.NORMAL, lockdown_active := false },
   [Event.cmd RelayCmd.lock, Event.log "[STATE] LOCKDOWN CLEARED → NORMAL MODE"])

/-- `Lockbox.trigger_window_unlock`. -/
def trigger_window_unlock (b : Box) : Box × List Event :=
  if b.lockdown_active then (b, [])
  else
    ({ b with window_active := true, state := Mode.WINDOW },
     [Event.cmd RelayCmd.unlock,
      Event.log ("[STATE] WINDOW UNLOCK for " ++ toString WINDOW_UNLOCK_TIME ++ " seconds")])

/-- `Lockbox.end_window_unlock`. -/
def end_window_unlock (b : Box) : Box × List Event :=
  ({ b with window_active := false, state := Mode.NORMAL },
   [Event.cmd RelayCmd.lock, Event.log "[STATE] WINDOW CLOSED → NORMAL MODE"])

/-- `Lockbox.temporary_unlock`. -/
def temporary_unlock (b : Box) : Box × List Event :=
  if b.lockdown_active then
    (b, [Event.log "[INFO] LOCKDOWN ACTIVE - IGNORING NORMAL UNLOCK"])
  else if b.window_active then
    (b, [Event.log "[INFO] WINDOW UNLOCK ACTIVE - NO NEED FOR TEMPORARY UNLOCK"])
  else
    (b, [Event.cmd RelayCmd.unlock,
         Event.log ("[STATE] TEMPORARY UNLOCK for " ++ toString TEMP_UNLOCK_TIME ++ " seconds"),
         Event.sleep TEMP_UNLOCK_TIME,
         Event.cmd RelayCmd.lock,
         Event.log "[STATE] TEMPORARY UNLOCK ENDED → NORMAL MODE"])

/-- One transition operation, as the interpreter and window-scheduler
threads may invoke them in any interleaving. -/
inductive Op where
  | enterLockdown : Op
  | exitLockdown : Op
  | triggerWindow : Op
  | endWindow : Op
  | tempUnlock : Op
deriving DecidableEq, Repr

/-- State effect of one transition operation. -/
def applyOp (b : Box) (op : Op) : Box :=
  match op with
  | Op.enterLockdown => (enter_lockdown b).1
  | Op.exitLockdown => (exit_lockdown b).1
  | Op.triggerWindow => (trigger_window_unlock b).1
  | Op.endWindow => (end_window_unlock b).1
  | Op.tempUnlock => (temporary_unlock b).1

/-- Apply a sequence of transition operations in order. -/
def runOps (b : Box) : List Op → Box
  | [] => b
  | op :: ops => runOps (applyOp b op) ops

/-- `StateMachineThread.process_code`: classify a complete buffer. -/
def process_code (b : Box) (buffer : List Char) : Box × List Event :=
  if buffer = LOCKDOWN_CODE then
    if b.lockdown_active then exit_lockdown b else enter_lockdown b
  else if buffer = NORMAL_CODE then
    temporary_unlock b
  else
    (b, [Event.log "[INFO] INVALID CODE"])

/-- Result of handling one key in `StateMachineThread.run`: new box, new
buffer, emitted events, and the buffer classified at this step (if any). -/
structure StepOut where
  box : Box
  buffer : List Char
  events : List Event
  classified : Option (List Char)
deriving DecidableEq, Repr

/-- One iteration of the `while True` loop of `StateMachineThread.run`,
for the key just taken from the queue. -/
def smStep (b : Box) (buffer : List Char) (key : Char) : StepOut :=
  let keyLog := [Event.log ("[KEY] " ++ String.singleton key)]
  if key = '*' then
    { box := b, buffer := [], events := keyLog ++ [Event.log "[BUFFER CLEARED]"],
      classified := none }
  else
    let buffer2 := buffer ++ [key]
    if buffer2.length ≥ 4 then
      let r := process_code b buffer2
      { box := r.1, buffer := [], events := keyLog ++ r.2, classified := some buffer2 }
    else
      { box := b, buffer := buffer2, events := keyLog, classified := none }

/-- Result of the interpreter consuming a finite key sequence: final box
and buffer, all events in order, and the list of buffers classified. -/
structure RunOut where
  box : Box
  buffer : List Char
  events : List Event
  codes : List (List Char)
deriving DecidableEq, Repr

/-- Run the interpreter loop over a finite sequence of key events. -/
def runSM (b : Box) (buffer : List Char) : List Char → RunOut
  | [] => { box := b, buffer := buffer, events := [], codes := [] }
  | k :: ks =>
    let o := smStep b buffer k
    let r := runSM o.box o.buffer ks
    { box := r.box, buffer := r.buffer, events := o.events ++ r.events,
      codes := o.classified.toList ++ r.codes }

/-- The part of the spec's §3 invariant that actually holds on all
reachable states: mode `LOCKDOWN` implies the lockdown flag, and mode
`WINDOW` implies the window flag and no lockdown flag. -/
abbrev ModeInv (b : Box) : Prop :=
  (b.state = Mode.LOCKDOWN → b.lockdown_active = true) ∧
  (b.state = Mode.WINDOW → b.window_active = true ∧ b.lockdown_active = false)

end Lockbox

namespace Lockbox

lemma applyOp_modeInv (b : Box) (op : Op) (h : ModeInv b) : ModeInv (applyOp b op) := by
  cases op <;> rcases b with ⟨m, ld, w⟩ <;> cases m <;> cases ld <;> cases w <;>
    revert h <;> decide

lemma runOps_modeInv (ops : List Op) : ∀ b : Box, ModeInv b → ModeInv (runOps b ops) := by
  induction ops with
  | nil => intro b h; exact h
  | cons op ops ih =>
      intro b h
      exact ih (applyOp b op) (applyOp_modeInv b op h)

/-- C1, counterexample: the §3 invariant fails on reachable states.  After
`enter_lockdown` followed by the scheduler's `end_window_unlock`, the
lockdown flag is set but the mode is `NORMAL`, refuting the claimed
equivalence; after `trigger_window_unlock` followed by `enter_lockdown`,
the window flag is set but the mode is `LOCKDOWN`, refuting the claimed
implication. -/
theorem C1_invariant_counterexample :
    ¬ ((((runOps initBox [Op.enterLockdown, Op.endWindow]).lockdown_active = true ↔
          (runOps initBox [Op.enterLockdown, Op.endWindow]).state = Mode.LOCKDOWN) ∧
        ((runOps initBox [Op.enterLockdown, Op.endWindow]).window_active = true →
          (runOps initBox [Op.enterLockdown, Op.endWindow]).state = Mode.WINDOW ∧
          (runOps initBox [Op.enterLockdown, Op.endWindow]).lockdown_active = false)) ∧
       (((runOps initBox [Op.triggerWindow, Op.enterLockdown]).lockdown_active = true ↔
          (runOps initBox [Op.triggerWindow, Op.enterLockdown]).state = Mode.LOCKDOWN) ∧
        ((runOps initBox [Op.triggerWindow, Op.enterLockdown]).window_active = true →
          (runOps initBox [Op.triggerWindow, Op.enterLockdown]).state = Mode.WINDOW ∧
          (runOps initBox [Op.triggerWindow, Op.enterLockdown]).lockdown_active = false))) := by
  decide

/-- C1, amended: for every state reachable from the initial state by any
sequence of the five transition operations, mode `LOCKDOWN` implies
`lockdown_active = true`, and mode `WINDOW` implies `window_active = true`
and `lockdown_active = false` (exactly one mode holds at any instant since
the mode is a single field).  The converse directions of the spec's §3
invariant do not hold on reachable states. -/
theorem C1_reachable_mode_invariant (ops : List Op) :
    ((runOps initBox ops).state = Mode.LOCKDOWN →
       (runOps initBox ops).lockdown_active = true) ∧
    ((runOps initBox ops).state = Mode.WINDOW →
       (runOps initBox ops).window_active = true ∧
       (runOps initBox ops).lockdown_active = false) :=
  runOps_modeInv ops initBox (by decide)

/-- C1 witness: instantiating the amended invariant after `enter_lockdown`
from the initial state. -/
theorem C1_reachable_mode_invariant_witness :
    (runOps initBox [Op.enterLockdown]).state = Mode.LOCKDOWN ∧
    (runOps initBox [Op.enterLockdown]).lockdown_active = true :=
  ⟨by decide, (C1_reachable_mode_invariant [Op.enterLockdown]).1 (by decide)⟩

/-- C2: while lockdown is active, `trigger_window_unlock` is a complete
no-op (no state change, no events at all), and `temporary_unlock` leaves
the state unchanged and issues no relay command, so the actuator state is
unchanged by both. -/
theorem C2_lockdown_priority (b : Box) (h : b.lockdown_active = true) :
    trigger_window_unlock b = (b, []) ∧
    (temporary_unlock b).1 = b ∧
    cmdsOf (temporary_unlock b).2 = [] ∧
    (∀ r : Relay, relayAfter r (trigger_window_unlock b).2 = r) ∧
    (∀ r : Relay, relayAfter r (temporary_unlock b).2 = r) := by
  rcases b with ⟨m, ld, w⟩
  subst h
  refine ⟨by simp [trigger_window_unlock], by simp [temporary_unlock],
    by simp [temporary_unlock, cmdsOf], fun r => ?_, fun r => ?_⟩ <;>
    simp [trigger_window_unlock, temporary_unlock, relayAfter]

/-- C2 witness: both operations are no-ops on a lockdown state. -/
theorem C2_lockdown_priority_witness :
    ({ initBox with state := Mode.LOCKDOWN, lockdown_active := true } : Box).lockdown_active
        = true ∧
    trigger_window_unlock { initBox with state := Mode.LOCKDOWN, lockdown_active := true } =
      ({ initBox with state := Mode.LOCKDOWN, lockdown_active := true }, []) :=
  ⟨by decide,
   (C2_lockdown_priority { initBox with state := Mode.LOCKDOWN, lockdown_active := true }
      (by decide)).1⟩

/-- C3, counterexample: `enter_lockdown` does not clear `window_active`.
Entering lockdown from the reachable open-window state leaves the window
flag set, so a window does remain active, contrary to the claim. -/
theorem C3_enter_lockdown_counterexample :
    (enter_lockdown (runOps initBox [Op.triggerWindow])).1.window_active ≠ false := by
  decide

/-- C3, amended: `enter_lockdown` is unconditional — from any state it sets
mode `LOCKDOWN`, sets `lockdown_active`, and issues exactly one `lock`
command — but it leaves `window_active` unchanged: it overrides an
in-progress window only by taking over the mode and locking the actuator,
not by clearing the window flag. -/
theorem C3_enter_lockdown_amended (b : Box) :
    (enter_lockdown b).1.state = Mode.LOCKDOWN ∧
    (enter_lockdown b).1.lockdown_active = true ∧
    (enter_lockdown b).1.window_active = b.window_active ∧
    cmdsOf (enter_lockdown b).2 = [RelayCmd.lock] ∧
    relayAfter Relay.unlocked (enter_lockdown b).2 = Relay.locked := by
  refine ⟨rfl, rfl, rfl, rfl, rfl⟩

end Lockbox

namespace Lockbox

lemma smStep_star (b : Box) (buf : List Char) :
    smStep b buf '*' =
      { box := b, buffer := [],
        events := [Event.log "[KEY] *", Event.log "[BUFFER CLEARED]"],
        classified := none } := rfl

lemma smStep_classify (b : Box) (buf : List Char) (key : Char)
    (hk : key ≠ '*') (hl : (buf ++ [key]).length ≥ 4) :
    smStep b buf key =
      { box := (process_code b (buf ++ [key])).1, buffer := [],
        events := [Event.log ("[KEY] " ++ String.singleton key)] ++
          (process_code b (buf ++ [key])).2,
        classified := some (buf ++ [key]) } := by
  simp only [smStep]
  rw [if_neg hk, if_pos hl]

lemma smStep_push (b : Box) (buf : List Char) (key : Char)
    (hk : key ≠ '*') (hl : ¬ (buf ++ [key]).length ≥ 4) :
    smStep b buf key =
      { box := b, buffer := buf ++ [key],
        events := [Event.log ("[KEY] " ++ String.singleton key)],
        classified := none } := by
  simp only [smStep]
  rw [if_neg hk, if_neg hl]

lemma runSM_inv : ∀ (keys : List Char) (b : Box) (buf : List Char),
    buf.length ≤ 3 → '*' ∉ buf →
    (∀ code ∈ (runSM b buf keys).codes, code.length = 4 ∧ '*' ∉ code) ∧
    (runSM b buf keys).buffer.length ≤ 3 ∧ '*' ∉ (runSM b buf keys).buffer := by
  intro keys
  induction keys with
  | nil =>
      intro b buf h1 h2
      exact ⟨by simp [runSM], by simpa [runSM] using h1, by simpa [runSM] using h2⟩
  | cons k ks ih =>
      intro b buf h1 h2
      by_cases hk : k = '*'
      · subst hk
        simp only [runSM, smStep_star, Option.toList_none, List.nil_append]
        exact ih b [] (by simp) (by simp)
      · by_cases hl : (buf ++ [k]).length ≥ 4
        · have hlen : (buf ++ [k]).length = 4 := by
            simp only [List.length_append, List.length_singleton] at hl ⊢
            omega
          have hstar : '*' ∉ buf ++ [k] := by
            simp only [List.mem_append, List.mem_singleton]
            rintro (h | h)
            · exact h2 h
            · exact hk h.symm
          simp only [runSM, smStep_classify b buf k hk hl, Option.toList_some,
            List.cons_append, List.nil_append]
          refine ⟨?_, (ih _ [] (by simp) (by simp)).2⟩
          intro code hc
          rcases List.mem_cons.mp hc with rfl | hc
          · exact ⟨hlen, hstar⟩
          · exact (ih _ [] (by simp) (by simp)).1 code hc
        · have hlen : (buf ++ [k]).length ≤ 3 := by omega
          have hstar : '*' ∉ buf ++ [k] := by
            simp only [List.mem_append, List.mem_singleton]
            rintro (h | h)
            · exact h2 h
            · exact hk h.symm
          simp only [runSM, smStep_push b buf k hk hl, Option.toList_none, List.nil_append]
          exact ih b (buf ++ [k]) hlen hstar

/-- C4: (i) after a 4th buffered (non-`*`) keypress the interpreter
classifies the completed buffer exactly once (`classified = some _`) and
the buffer is empty afterwards, regardless of match outcome; (ii) a `*`
event empties the buffer and classifies nothing; (iii) over any run from
an empty buffer, every buffer that reaches classification has exactly 4
characters and contains no `*`. -/
theorem C4_buffer_reset_law :
    (∀ (b : Box) (buf : List Char) (key : Char), key = '*' →
       (smStep b buf key).buffer = [] ∧ (smStep b buf key).classified = none) ∧
    (∀ (b : Box) (buf : List Char) (key : Char), key ≠ '*' → buf.length = 3 →
       (smStep b buf key).buffer = [] ∧
       (smStep b buf key).classified = some (buf ++ [key])) ∧
    (∀ (b : Box) (keys : List Char),
       ∀ code ∈ (runSM b [] keys).codes, code.length = 4 ∧ '*' ∉ code) := by
  refine ⟨?_, ?_, ?_⟩
  · intro b buf key hk
    subst hk
    rw [smStep_star]
    exact ⟨rfl, rfl⟩
  · intro b buf key hk h3
    have hl : (buf ++ [key]).length ≥ 4 := by
      simp [List.length_append, h3]
    rw [smStep_classify b buf key hk hl]
    exact ⟨rfl, rfl⟩
  · intro b keys
    exact (runSM_inv keys b [] (by simp) (by simp)).1

/-- C4 witness: a `*` after two keys clears the buffer without
classification; a 4th key `4` after `123` classifies exactly `1234`; the
run on `9999` yields only 4-character star-free codes. -/
theorem C4_buffer_reset_law_witness :
    ((smStep initBox ['1', '2'] '*').buffer = [] ∧
       (smStep initBox ['1', '2'] '*').classified = none) ∧
    (('4' : Char) ≠ '*' ∧ (['1', '2', '3'] : List Char).length = 3 ∧
       (smStep initBox ['1', '2', '3'] '4').buffer = [] ∧
       (smStep initBox ['1', '2', '3'] '4').classified = some ['1', '2', '3', '4']) ∧
    (∀ code ∈ (runSM initBox [] ['9', '9', '9', '9']).codes,
       code.length = 4 ∧ '*' ∉ code) :=
  ⟨C4_buffer_reset_law.1 initBox ['1', '2'] '*' rfl,
   ⟨by decide, by decide,
    C4_buffer_reset_law.2.1 initBox ['1', '2', '3'] '4' (by decide) (by decide)⟩,
   C4_buffer_reset_law.2.2 initBox ['9', '9', '9', '9']⟩

end Lockbox

namespace Lockbox

/-- C5: `process_code` follows the stated priority order — a buffer equal
to the lockdown code toggles lockdown (`exit_lockdown` when the flag is
set, `enter_lockdown` otherwise); a buffer equal to the normal code
invokes `temporary_unlock`; any other buffer only logs
`[INFO] INVALID CODE`, with no state change and no relay command. -/
theorem C5_classification_priority (b : Box) (buf : List Char) :
    (buf = LOCKDOWN_CODE → b.lockdown_active = true →
       process_code b buf = exit_lockdown b) ∧
    (buf = LOCKDOWN_CODE → b.lockdown_active = false →
       process_code b buf = enter_lockdown b) ∧
    (buf = NORMAL_CODE → process_code b buf = temporary_unlock b) ∧
    (buf ≠ LOCKDOWN_CODE → buf ≠ NORMAL_CODE →
       (process_code b buf).1 = b ∧
       (process_code b buf).2 = [Event.log "[INFO] INVALID CODE"] ∧
       cmdsOf (process_code b buf).2 = []) := by
  refine ⟨?_, ?_, ?_, ?_⟩
  · intro h hld
    subst h
    simp [process_code, hld]
  · intro h hld
    subst h
    simp [process_code, hld]
  · intro h
    subst h
    have hne : NORMAL_CODE ≠ LOCKDOWN_CODE := by decide
    simp [process_code, hne]
  · intro h1 h2
    simp [process_code, h1, h2, cmdsOf]

/-- C5 witness: the four classification branches at concrete inputs. -/
theorem C5_classification_priority_witness :
    process_code { initBox with state := Mode.LOCKDOWN, lockdown_active := true }
        LOCKDOWN_CODE =
      exit_lockdown { initBox with state := Mode.LOCKDOWN, lockdown_active := true } ∧
    process_code initBox LOCKDOWN_CODE = enter_lockdown initBox ∧
    process_code initBox NORMAL_CODE = temporary_unlock initBox ∧
    (process_code initBox ['1', '1', '1', '1']).1 = initBox ∧
    (process_code initBox ['1', '1', '1', '1']).2 = [Event.log "[INFO] INVALID CODE"] :=
  ⟨(C5_classification_priority
      { initBox with state := Mode.LOCKDOWN, lockdown_active := true } LOCKDOWN_CODE).1
      rfl (by decide),
   (C5_classification_priority initBox LOCKDOWN_CODE).2.1 rfl (by decide),
   (C5_classification_priority initBox NORMAL_CODE).2.2.1 rfl,
   ((C5_classification_priority initBox ['1', '1', '1', '1']).2.2.2
      (by decide) (by decide)).1,
   ((C5_classification_priority initBox ['1', '1', '1', '1']).2.2.2
      (by decide) (by decide)).2.1⟩

/-- C6: from any state in `NORMAL` mode with the lockdown flag clear,
feeding the interpreter the lockdown code twice in a row classifies two
codes, the first performing `enter_lockdown` (logs `[STATE] LOCKDOWN`) and
the second `exit_lockdown` (logs the cleared line), ends in `NORMAL` mode
with the flag clear, and the relay — locked initially — receives only
`lock` commands, so it is locked before the first entry and after the
second. -/
theorem C6_toggle_law (b : Box) (h1 : b.state = Mode.NORMAL)
    (h2 : b.lockdown_active = false) :
    (runSM b [] (LOCKDOWN_CODE ++ LOCKDOWN_CODE)).box.state = Mode.NORMAL ∧
    (runSM b [] (LOCKDOWN_CODE ++ LOCKDOWN_CODE)).box.lockdown_active = false ∧
    (runSM b [] (LOCKDOWN_CODE ++ LOCKDOWN_CODE)).codes = [LOCKDOWN_CODE, LOCKDOWN_CODE] ∧
    logsOf (runSM b [] (LOCKDOWN_CODE ++ LOCKDOWN_CODE)).events =
      ["[KEY] 9", "[KEY] 9", "[KEY] 9", "[KEY] 9", "[STATE] LOCKDOWN",
       "[KEY] 9", "[KEY] 9", "[KEY] 9", "[KEY] 9",
       "[STATE] LOCKDOWN CLEARED → NORMAL MODE"] ∧
    cmdsOf (runSM b [] (LOCKDOWN_CODE ++ LOCKDOWN_CODE)).events =
      [RelayCmd.lock, RelayCmd.lock] ∧
    relayAfter Relay.locked (runSM b [] (LOCKDOWN_CODE ++ LOCKDOWN_CODE)).events =
      Relay.locked := by
  rcases b with ⟨m, ld, w⟩
  revert h1 h2
  cases m <;> cases ld <;> cases w <;> decide

/-- C6 witness: the toggle law at the initial state. -/
theorem C6_toggle_law_witness :
    initBox.state = Mode.NORMAL ∧ initBox.lockdown_active = false ∧
    (runSM initBox [] (LOCKDOWN_CODE ++ LOCKDOWN_CODE)).box.state = Mode.NORMAL :=
  ⟨by decide, by decide, (C6_toggle_law initBox (by decide) (by decide)).1⟩

/-- C7: when lockdown is entered between the scheduler's
`trigger_window_unlock` and `end_window_unlock`, the subsequent
`end_window_unlock` still leaves the actuator locked (and the window flag
clear), from any starting relay state. -/
theorem C7_end_window_relocks (b : Box) (r : Relay) (h : b.lockdown_active = false) :
    relayAfter r
        ((trigger_window_unlock b).2 ++
         (enter_lockdown (trigger_window_unlock b).1).2 ++
         (end_window_unlock (enter_lockdown (trigger_window_unlock b).1).1).2) =
      Relay.locked ∧
    (end_window_unlock (enter_lockdown (trigger_window_unlock b).1).1).1.window_active =
      false := by
  rcases b with ⟨m, ld, w⟩
  revert h
  cases m <;> cases ld <;> cases w <;> cases r <;> decide

/-- C7 witness: the race scenario from the initial state and a locked
relay. -/
theorem C7_end_window_relocks_witness :
    initBox.lockdown_active = false ∧
    relayAfter Relay.locked
        ((trigger_window_unlock initBox).2 ++
         (enter_lockdown (trigger_window_unlock initBox).1).2 ++
         (end_window_unlock (enter_lockdown (trigger_window_unlock initBox).1).1).2) =
      Relay.locked :=
  ⟨by decide, (C7_end_window_relocks initBox Relay.locked (by decide)).1⟩

/-- C8, counterexample: a window-trigger request arriving during lockdown
produces no log line at all — `trigger_window_unlock` on the reachable
lockdown state emits no events — refuting the claim that every
conflicting-mode request is logged. -/
theorem C8_conflict_logging_counterexample :
    ¬ (logsOf (trigger_window_unlock (runOps initBox [Op.enterLockdown])).2 ≠ []) := by
  decide

/-- C8, amended: a normal-unlock request during lockdown or during a
window is rejected with a distinct identifying `[INFO]` log line, but a
window-trigger request during lockdown is rejected silently: the
operation is a no-op that emits no log line. -/
theorem C8_conflict_logging_amended (b : Box) :
    (b.lockdown_active = true →
       logsOf (temporary_unlock b).2 = ["[INFO] LOCKDOWN ACTIVE - IGNORING NORMAL UNLOCK"]) ∧
    (b.lockdown_active = false → b.window_active = true →
       logsOf (temporary_unlock b).2 =
         ["[INFO] WINDOW UNLOCK ACTIVE - NO NEED FOR TEMPORARY UNLOCK"]) ∧
    (b.lockdown_active = true → (trigger_window_unlock b).2 = []) := by
  rcases b with ⟨m, ld, w⟩
  cases ld <;> cases w <;>
    refine ⟨?_, ?_, ?_⟩ <;> intro h <;>
      simp_all [temporary_unlock, trigger_window_unlock, logsOf]

/-- C8 witness: the amended logging behaviour at concrete lockdown and
window states. -/
theorem C8_conflict_logging_amended_witness :
    ({ initBox with state := Mode.LOCKDOWN, lockdown_active := true } : Box).lockdown_active
        = true ∧
    logsOf (temporary_unlock
        { initBox with state := Mode.LOCKDOWN, lockdown_active := true }).2 =
      ["[INFO] LOCKDOWN ACTIVE - IGNORING NORMAL UNLOCK"] ∧
    logsOf (temporary_unlock
        { initBox with state := Mode.WINDOW, window_active := true }).2 =
      ["[INFO] WINDOW UNLOCK ACTIVE - NO NEED FOR TEMPORARY UNLOCK"] :=
  ⟨by decide,
   (C8_conflict_logging_amended
      { initBox with state := Mode.LOCKDOWN, lockdown_active := true }).1 (by decide),
   (C8_conflict_logging_amended
      { initBox with state := Mode.WINDOW, window_active := true }).2.1
      (by decide) (by decide)⟩

/-- C9: the `Lockbox` record built by `__init__` at startup has mode
`NORMAL` and both flags `false`; it is the sole initial state, and all
later states arise only by applying transition operations to it. -/
theorem C9_initial_state :
    initBox.state = Mode.NORMAL ∧ initBox.lockdown_active = false ∧
    initBox.window_active = false ∧ runOps initBox [] = initBox := by
  decide

/-- C10: when both guards pass (`lockdown_active` and `window_active`
false, mode `NORMAL`), `temporary_unlock` returns the state completely
unchanged — mode stays `NORMAL` and both flags stay false — and its
effects are exactly: relay unlock, the announcement log, the timed wait,
relay lock, the completion log. -/
theorem C10_temporary_unlock_frame (b : Box) (h1 : b.lockdown_active = false)
    (h2 : b.window_active = false) (h3 : b.state = Mode.NORMAL) :
    (temporary_unlock b).1 = b ∧
    (temporary_unlock b).1.state = Mode.NORMAL ∧
    (temporary_unlock b).1.lockdown_active = false ∧
    (temporary_unlock b).1.window_active = false ∧
    (temporary_unlock b).2 =
      [Event.cmd RelayCmd.unlock,
       Event.log "[STATE] TEMPORARY UNLOCK for 10 seconds",
       Event.sleep TEMP_UNLOCK_TIME,
       Event.cmd RelayCmd.lock,
       Event.log "[STATE] TEMPORARY UNLOCK ENDED → NORMAL MODE"] := by
  rcases b with ⟨m, ld, w⟩
  revert h1 h2 h3
  cases m <;> cases ld <;> cases w <;> decide

/-- C10 witness: the frame property at the initial state. -/
theorem C10_temporary_unlock_frame_witness :
    initBox.lockdown_active = false ∧ initBox.window_active = false ∧
    initBox.state = Mode.NORMAL ∧ (temporary_unlock initBox).1 = initBox :=
  ⟨by decide, by decide, by decide,
   (C10_temporary_unlock_frame initBox (by decide) (by decide) (by decide)).1⟩

end Lockbox
